import Mathlib

/-!
Verification of the media pipeline and post repository of the personal-blog
repository (two variants: `blog-site/main.py` and `file-formatter/main.py`).

The Python code is shallowly embedded: pure string/list manipulation is
translated directly; the two external effects (running the `ffmpeg`
subprocess and talking to Google Cloud Storage) are modelled by explicit
outcome values (`EncoderOutcome`, the `uploadOk` flag) that each simulated
uploaded file carries, so every handler becomes a pure function from the
request data plus those oracles to its observable results.
-/

/-- Outcome of the single synchronous `subprocess.run(command, check=True, ...)`
call (the code never retries: each conversion consults exactly one outcome).
`exitNonZero stderr` models `subprocess.CalledProcessError` with the captured
standard error; `notFound` models `FileNotFoundError` (missing binary). -/
inductive EncoderOutcome where
  | ok
  | exitNonZero (stderr : String)
  | notFound
deriving Repr, DecidableEq

/-- The `RuntimeError`s raised by `process_media` in both variants, plus
`uploadFailed` for an exception escaping `upload_to_gcs` (blog variant only).
The constructors carry exactly the data interpolated into the Python
message strings; `ConvError.message` rebuilds those strings verbatim. -/
inductive ConvError where
  | unsupported (ext : String)
  | conversionFailed (input_name : String) (detail : String)
  | ffmpegNotFound
  | uploadFailed (msg : String)
deriving Repr, DecidableEq

/-- The f-string messages of the raised `RuntimeError`s, verbatim from the
source (identical in both variants). -/
def ConvError.message : ConvError → String
  | .unsupported ext =>
      ("Unsupported file type: ") ++ ext ++ (". Only common video and image types are supported.")
  | .conversionFailed input_name detail =>
      ("Conversion failed for ") ++ input_name ++ (". Detail: ") ++ detail
  | .ffmpegNotFound =>
      ("FFmpeg command not found. Please install ffmpeg on your server.")
  | .uploadFailed msg => msg

/-- Python `e.stderr.split('Error')[1].strip().split('\n')[0] if 'Error' in
e.stderr else e.stderr.strip()` (identical in both variants).  `'Error' in s`
holds exactly when `s.splitOn "Error"` has at least two pieces, and
`String.splitOn` agrees with Python `str.split` for a non-empty separator. -/
def error_detail (stderr : String) : String :=
  let parts := stderr.splitOn ("Error")
  if 2 ≤ parts.length then
    (((parts.getD 1 ("")).trim).splitOn ("\n")).getD 0 ("")
  else stderr.trim

/-- The shared `try: subprocess.run(...) except ...` block of both variants,
turning an encoder outcome into the `RuntimeError` the Python raises
(`input_name` is `input_path.name`). -/
def run_encoder (input_name : String) (enc : EncoderOutcome) : Except ConvError Unit :=
  match enc with
  | .ok => .ok ()
  | .exitNonZero stderr => .error (.conversionFailed input_name (error_detail stderr))
  | .notFound => .error .ffmpegNotFound

/-- The classification result both variants compute before invoking the
encoder: the output filename, the human-readable type label, and the full
`ffmpeg` argument list. -/
structure ConvPlan where
  optimized_filename : String
  file_type : String
  command : List String
deriving Repr, DecidableEq

/-- Python `needle in hay` for a non-empty needle, via `str.split`. -/
def py_substr (needle hay : String) : Bool :=
  2 ≤ (hay.splitOn needle).length

/-- Python `str.lower()`, character-wise; the strings this code lowercases
(file extensions and the two type labels) are ASCII, where `Char.toLower`
agrees with Python. -/
def py_lower (s : String) : String := String.mk (s.data.map Char.toLower)

/-- Python `pathlib.Path(p).name` for the slash-joined paths this code
builds: the part after the last `/`. -/
def path_name (p : String) : String :=
  (p.splitOn ("/")).getLastD p

namespace FileFormatter

/-- `crf_map.get(quality, '23')` with `crf_map = {'high': '20', 'medium':
'23', 'low': '28'}` (`file-formatter/main.py`). -/
def crf_value (quality : String) : String :=
  if quality = ("high") then ("20")
  else if quality = ("medium") then ("23")
  else if quality = ("low") then ("28")
  else ("23")

/-- `webp_quality_map.get(quality, '75')` with `webp_quality_map = {'high':
'85', 'medium': '75', 'low': '60'}` (`file-formatter/main.py`). -/
def webp_quality (quality : String) : String :=
  if quality = ("high") then ("85")
  else if quality = ("medium") then ("75")
  else if quality = ("low") then ("60")
  else ("75")

/-- The video extension list of `process_media` (`file-formatter/main.py`). -/
def video_exts : List String :=
  [(".mp4"), (".mov"), (".avi"), (".mkv"), (".webm")]

/-- The image extension list of `process_media` (`file-formatter/main.py`);
note `.webp` is absent in this variant. -/
def image_exts : List String :=
  [(".jpg"), (".jpeg"), (".png"), (".tiff"), (".bmp")]

/-- `CONVERTED_DIR` as a path string. -/
def CONVERTED_DIR : String := ("converted_media")

/-- The classification + command-building prefix of `process_media`
(`file-formatter/main.py`, lines 42-88): branches on
`input_path.suffix.lower()`, raising the unsupported-type `RuntimeError`
when neither extension list matches.  `stem`/`sfx` are `input_path.stem`
and `input_path.suffix`; `input_path_str` is `str(input_path)`. -/
def media_plan (stem sfx quality input_path_str : String) : Except ConvError ConvPlan :=
  let ext := py_lower sfx
  if ext ∈ video_exts then
    let output_filename := ("optimized_") ++ stem ++ (".mp4")
    .ok { optimized_filename := output_filename
          file_type := ("Video (MP4)")
          command :=
            [("ffmpeg"), ("-i"), input_path_str,
             ("-vcodec"), ("libx264"),
             ("-crf"), crf_value quality,
             ("-preset"), ("fast"),
             ("-acodec"), ("aac"),
             ("-movflags"), ("+faststart"),
             ("-y"),
             CONVERTED_DIR ++ ("/") ++ output_filename] }
  else if ext ∈ image_exts then
    let output_filename := ("optimized_") ++ stem ++ (".webp")
    .ok { optimized_filename := output_filename
          file_type := ("Image (WebP)")
          command :=
            [("ffmpeg"), ("-i"), input_path_str,
             ("-q:v"), webp_quality quality,
             ("-compression_level"), ("4"),
             ("-y"),
             CONVERTED_DIR ++ ("/") ++ output_filename] }
  else
    .error (.unsupported ext)

/-- One uploaded file together with the oracle for its encoder run.  The
handler writes the upload to `temp_dir / file.filename`, so the stem and
suffix used by `process_media` come from the filename, here represented as
`stem ++ sfx`. -/
structure UploadSim where
  stem : String
  sfx : String
  enc : EncoderOutcome
deriving Repr, DecidableEq

/-- The filename of the simulated upload (`file.filename`). -/
def UploadSim.filename (f : UploadSim) : String := f.stem ++ f.sfx

/-- `process_media(input_path, quality)` (`file-formatter/main.py`, lines
31-104): classify and build the command, run the encoder, and on success
return `(output_path, file_type)` with `output_path = CONVERTED_DIR /
output_filename` (as a path string). -/
def process_media (f : UploadSim) (quality : String) : Except ConvError (String × String) := do
  let plan ← media_plan f.stem f.sfx quality (("tmp/") ++ f.filename)
  let _ ← run_encoder f.filename f.enc
  .ok (CONVERTED_DIR ++ ("/") ++ plan.optimized_filename, plan.file_type)

/-- One row of the `results` list built by `convert_media_bulk`.  The Python
per-file dict starts as `{"filename": ..., "status": "failed", "message":
"Processing failed."}` and is `update`d on success (so `message` keeps its
initial value on success); absent keys are modelled as `""`.  The wall-clock
`"time"` entry is outside the embedding. -/
structure ConvResult where
  filename : String
  status : String
  message : String
  output_name : String
  file_type : String
  download_url : String
deriving Repr, DecidableEq

/-- The body of the per-file loop of `convert_media_bulk`
(`file-formatter/main.py`, lines 201-231): one try/except per file. -/
def convert_one (quality : String) (f : UploadSim) : ConvResult :=
  match process_media f quality with
  | .ok (output_path, ftype) =>
      { filename := f.filename
        status := ("success")
        message := ("Processing failed.")
        output_name := path_name output_path
        file_type := ftype
        download_url := ("/download/") ++ path_name output_path }
  | .error e =>
      { filename := f.filename
        status := ("failed")
        message := e.message
        output_name := ("")
        file_type := ("")
        download_url := ("") }

/-- `convert_media_bulk` (`file-formatter/main.py`, lines 184-234): `none`
models the early `if not files:` error response; otherwise every file is
run through its own try/except and contributes exactly one result row. -/
def convert_media_bulk (files : List UploadSim) (quality : String) :
    Option (List ConvResult) :=
  if files = [] then none
  else some (files.map (convert_one quality))

end FileFormatter

namespace BlogSite

/-- `crf_map.get(quality, '23')` (`blog-site/main.py`, lines 97-98). -/
def crf_value (quality : String) : String :=
  if quality = ("high") then ("20")
  else if quality = ("medium") then ("23")
  else if quality = ("low") then ("28")
  else ("23")

/-- `webp_quality_map.get(quality, '75')` (`blog-site/main.py`, lines 99-100). -/
def webp_quality (quality : String) : String :=
  if quality = ("high") then ("85")
  else if quality = ("medium") then ("75")
  else if quality = ("low") then ("60")
  else ("75")

/-- The video extension list of `process_media` (`blog-site/main.py`). -/
def video_exts : List String :=
  [(".mp4"), (".mov"), (".avi"), (".mkv"), (".webm")]

/-- The image extension list of `process_media` (`blog-site/main.py`); this
variant additionally accepts `.webp`. -/
def image_exts : List String :=
  [(".jpg"), (".jpeg"), (".png"), (".tiff"), (".bmp"), (".webp")]

/-- `GCS_BUCKET_NAME` (the default used when the environment variable is
unset). -/
def GCS_BUCKET_NAME : String := ("blog-posts-gazerah")

/-- `get_gcs_url` (`blog-site/main.py`, lines 72-74). -/
def get_gcs_url (object_name : String) : String :=
  ("https://storage.googleapis.com/") ++ GCS_BUCKET_NAME ++ ("/") ++ object_name

/-- The classification + command-building part of `process_media`
(`blog-site/main.py`, lines 94-135); `out_dir` stands for the temporary
output directory. -/
def media_plan (stem sfx quality input_path_str out_dir : String) :
    Except ConvError ConvPlan :=
  let ext := py_lower sfx
  if ext ∈ video_exts then
    let optimized_filename := ("optimized_") ++ stem ++ (".mp4")
    .ok { optimized_filename := optimized_filename
          file_type := ("Video (MP4)")
          command :=
            [("ffmpeg"), ("-i"), input_path_str,
             ("-vcodec"), ("libx264"),
             ("-crf"), crf_value quality,
             ("-preset"), ("fast"),
             ("-acodec"), ("aac"),
             ("-movflags"), ("+faststart"),
             ("-y"),
             out_dir ++ ("/") ++ optimized_filename] }
  else if ext ∈ image_exts then
    let optimized_filename := ("optimized_") ++ stem ++ (".webp")
    .ok { optimized_filename := optimized_filename
          file_type := ("Image (WebP)")
          command :=
            [("ffmpeg"), ("-i"), input_path_str,
             ("-q:v"), webp_quality quality,
             ("-compression_level"), ("4"),
             ("-y"),
             out_dir ++ ("/") ++ optimized_filename] }
  else
    .error (.unsupported ext)

/-- One uploaded file with the oracles for its encoder run and its GCS
upload (`upload_to_gcs` raising is modelled by `uploadOk = false`). -/
structure UploadSim where
  stem : String
  sfx : String
  enc : EncoderOutcome
  uploadOk : Bool
deriving Repr, DecidableEq

/-- The filename of the simulated upload (`file.filename`). -/
def UploadSim.filename (f : UploadSim) : String := f.stem ++ f.sfx

/-- `process_media(input_path, quality, post_date_folder)`
(`blog-site/main.py`, lines 82-154): classify and build the command, run
the encoder, upload the result to GCS under
`posts/{post_date_folder}/{optimized_filename}`, and return the public URL
with the type label. -/
def process_media (f : UploadSim) (quality post_date_folder : String) :
    Except ConvError (String × String) := do
  let plan ← media_plan f.stem f.sfx quality (("tmp/") ++ f.filename) ("tmpout")
  let _ ← run_encoder f.filename f.enc
  if f.uploadOk then
    let gcs_object_name := ("posts/") ++ post_date_folder ++ ("/") ++ plan.optimized_filename
    .ok (get_gcs_url gcs_object_name, plan.file_type)
  else
    .error (.uploadFailed ("GCS upload failed"))

/-- A `MediaItem` record (`blog-site/main.py`, lines 49-51). -/
structure MediaItem where
  type : String
  url : String
deriving Repr, DecidableEq

/-- A `BlogPost` record (`blog-site/main.py`, lines 53-58). -/
structure BlogPost where
  id : Int
  title : String
  date : String
  description : String
  media : List MediaItem
deriving Repr, DecidableEq

/-- The body of the per-file loop shared by `admin_create_post` and
`admin_update_post` (`blog-site/main.py`, lines 292-303 and 376-387): save
the upload, run `process_media`, derive the kind tag from the type label
(`"video" if "video" in file_type.lower() else "image"`); any exception is
caught and the file contributes nothing. -/
def process_upload (quality date_folder : String) (f : UploadSim) : Option MediaItem :=
  match process_media f quality date_folder with
  | .ok (gcs_url, file_type) =>
      some { type := if py_substr ("video") (py_lower file_type) then ("video") else ("image")
             url := gcs_url }
  | .error _ => none

/-- The guarded upload loop shared by both mutating handlers: `if files and
files[0].filename:` — files are processed only when the list is non-empty
and its first element's filename is a non-empty (truthy) string. -/
def build_new_media (files : List UploadSim) (quality date_folder : String) :
    List MediaItem :=
  match files with
  | [] => []
  | f :: rest =>
      if f.filename = ("") then []
      else (f :: rest).filterMap (process_upload quality date_folder)

/-- `max([p.id for p in posts]) + 1 if posts else 1` (`blog-site/main.py`,
line 307). -/
def next_id (posts : List BlogPost) : Int :=
  match posts.map (fun p => p.id) with
  | [] => 1
  | x :: xs => xs.foldl max x + 1

/-- The form/multipart data of `admin_create_post`; an absent `files` field
(`File(None)` giving `None`) is modelled as `[]`, which the truthiness
guard treats identically. -/
structure CreateForm where
  title : String
  date : String
  description : String
  date_folder : String
  quality : String
  files : List UploadSim
deriving Repr, DecidableEq

/-- `admin_create_post` (`blog-site/main.py`, lines 270-312): convert the
uploads, assign `next_id`, append the new post, and save. The returned list
is the collection passed to `save_posts`. -/
def admin_create_post (posts : List BlogPost) (form : CreateForm) : List BlogPost :=
  let media_items := build_new_media form.files form.quality form.date_folder
  posts ++ [{ id := next_id posts
              title := form.title
              date := form.date
              description := form.description
              media := media_items }]

/-- `[url for url in old_media_urls if url not in existing_media_urls]`
(`blog-site/main.py`, line 359); note it is computed from the submitted URL
list alone. -/
def media_to_delete (old_media_urls existing_media_urls : List String) : List String :=
  old_media_urls.filter (fun url => !(existing_media_urls.contains url))

/-- The kept-media rebuild of `admin_update_post` (`blog-site/main.py`,
lines 366-369): `zip` truncates to the shorter list, and the truthiness
guard keeps nothing when either list is `None`/empty. -/
def kept_media (existing_media_urls existing_media_types : List String) :
    List MediaItem :=
  if existing_media_urls ≠ [] ∧ existing_media_types ≠ [] then
    (existing_media_urls.zip existing_media_types).map
      (fun p => { type := p.2, url := p.1 })
  else []

/-- The form/multipart data of `admin_update_post`; the `Form(None)` lists
are modelled as `[]` (Python treats `None` and `[]` identically in every
use: `or []`, truthiness guards, and `zip`). -/
structure EditForm where
  title : String
  date : String
  description : String
  date_folder : String
  quality : String
  existing_media_urls : List String
  existing_media_types : List String
  files : List UploadSim
deriving Repr, DecidableEq

/-- `admin_update_post` (`blog-site/main.py`, lines 329-394): find the first
post with the given id (`none` models the 404 response), compute the
deletion list from the submitted URLs, rebuild the media as kept items in
submitted order followed by the newly converted uploads, and replace the
post in place.  The first component of the result is the URL list passed to
`delete_post_media` (empty meaning the `if media_to_delete:` guard skipped
the call); the second is the collection passed to `save_posts`. -/
def admin_update_post (posts : List BlogPost) (post_id : Int) (form : EditForm) :
    Option (List String × List BlogPost) :=
  match posts with
  | [] => none
  | p :: rest =>
      if p.id = post_id then
        some (media_to_delete (p.media.map (fun m => m.url)) form.existing_media_urls,
          ({ id := post_id
             title := form.title
             date := form.date
             description := form.description
             media := kept_media form.existing_media_urls form.existing_media_types
               ++ build_new_media form.files form.quality form.date_folder } : BlogPost)
          :: rest)
      else
        match admin_update_post rest post_id form with
        | none => none
        | some r => some (r.1, p :: r.2)

/-- Per-URL object-name extraction of `delete_post_media`
(`blog-site/main.py`, lines 185-194): `url.split(f"storage.googleapis.com/
{bucket}/")[1]`, where a missing separator raises (caught and logged, no
deletion issued for that URL). -/
def url_object_name (url : String) : Option String :=
  (url.splitOn (("storage.googleapis.com/") ++ GCS_BUCKET_NAME ++ ("/"))).get? 1

/-- `delete_post_media` at the storage level: the GCS object names for which
a delete is actually issued (best-effort; unparseable URLs are skipped). -/
def delete_post_media (media_urls : List String) : List String :=
  media_urls.filterMap url_object_name

/-- `admin_delete_post` (`blog-site/main.py`, lines 396-417): `none` models
the 404 response; otherwise the first component is the URL list handed to
`delete_post_media` and the second the collection passed to `save_posts`. -/
def admin_delete_post (posts : List BlogPost) (post_id : Int) :
    Option (List String × List BlogPost) :=
  match posts.find? (fun p => p.id == post_id) with
  | none => none
  | some post =>
      some (post.media.map (fun m => m.url),
        posts.filter (fun p => !(p.id == post_id)))

/-- JSON values, as produced by `json.dump` / consumed by `json.load`. -/
inductive Json where
  | null
  | jbool (b : Bool)
  | jnum (n : Int)
  | jstr (s : String)
  | jarr (elems : List Json)
  | jobj (fields : List (String × Json))

/-- `post.model_dump()` for a `MediaItem`. -/
def media_to_json (m : MediaItem) : Json :=
  .jobj [(("type"), .jstr m.type), (("url"), .jstr m.url)]

/-- `MediaItem(**d)`: pydantic validation of one media dict; `none` models a
raised `ValidationError`. -/
def media_of_json : Json → Option MediaItem
  | .jobj fields =>
      match fields.lookup ("type"), fields.lookup ("url") with
      | some (.jstr t), some (.jstr u) => some { type := t, url := u }
      | _, _ => none
  | _ => none

/-- All-or-nothing traversal: the list comprehension `[BlogPost(**post) for
post in json.load(f)]` raises as soon as one element fails to validate. -/
def parse_all {α β : Type} (f : α → Option β) : List α → Option (List β)
  | [] => some []
  | x :: xs =>
      match f x, parse_all f xs with
      | some y, some ys => some (y :: ys)
      | _, _ => none

/-- `post.model_dump()` for a `BlogPost`. -/
def post_to_json (p : BlogPost) : Json :=
  .jobj [(("id"), .jnum p.id), (("title"), .jstr p.title),
         (("date"), .jstr p.date), (("description"), .jstr p.description),
         (("media"), .jarr (p.media.map media_to_json))]

/-- `BlogPost(**d)`: pydantic validation of one post dict. -/
def post_of_json : Json → Option BlogPost
  | .jobj fields =>
      match fields.lookup ("id"), fields.lookup ("title"), fields.lookup ("date"),
            fields.lookup ("description"), fields.lookup ("media") with
      | some (.jnum i), some (.jstr t), some (.jstr d), some (.jstr ds),
        some (.jarr ms) =>
          match parse_all media_of_json ms with
          | some media => some { id := i, title := t, date := d,
                                 description := ds, media := media }
          | none => none
      | _, _, _, _, _ => none
  | _ => none

/-- `load_posts` (`blog-site/main.py`, lines 60-65): the argument is the
parsed content of `blog_posts.json` (`none` = the file does not exist, in
which case the function returns `[]`).  The result `none` models an
exception escaping the handler (non-array document or validation failure). -/
def load_posts : Option Json → Option (List BlogPost)
  | none => some []
  | some (.jarr elems) => parse_all post_of_json elems
  | some _ => none

/-- `save_posts` (`blog-site/main.py`, lines 67-70): the JSON document
written to `blog_posts.json`. -/
def save_posts (posts : List BlogPost) : Json :=
  .jarr (posts.map post_to_json)

end BlogSite

theorem ff_media_plan_video (stem sfx quality i : String)
    (hv : py_lower sfx ∈ FileFormatter.video_exts) :
    FileFormatter.media_plan stem sfx quality i =
      .ok { optimized_filename := ("optimized_") ++ stem ++ (".mp4")
            file_type := ("Video (MP4)")
            command :=
              [("ffmpeg"), ("-i"), i,
               ("-vcodec"), ("libx264"),
               ("-crf"), FileFormatter.crf_value quality,
               ("-preset"), ("fast"),
               ("-acodec"), ("aac"),
               ("-movflags"), ("+faststart"),
               ("-y"),
               FileFormatter.CONVERTED_DIR ++ ("/") ++ (("optimized_") ++ stem ++ (".mp4"))] } := by
  simp only [FileFormatter.media_plan]
  rw [if_pos hv]

theorem ff_image_not_video (e : String) (h : e ∈ FileFormatter.image_exts) :
    e ∉ FileFormatter.video_exts := by
  fin_cases h <;> decide

theorem ff_media_plan_image (stem sfx quality i : String)
    (hv : py_lower sfx ∈ FileFormatter.image_exts) :
    FileFormatter.media_plan stem sfx quality i =
      .ok { optimized_filename := ("optimized_") ++ stem ++ (".webp")
            file_type := ("Image (WebP)")
            command :=
              [("ffmpeg"), ("-i"), i,
               ("-q:v"), FileFormatter.webp_quality quality,
               ("-compression_level"), ("4"),
               ("-y"),
               FileFormatter.CONVERTED_DIR ++ ("/") ++ (("optimized_") ++ stem ++ (".webp"))] } := by
  simp only [FileFormatter.media_plan]
  rw [if_neg (ff_image_not_video _ hv), if_pos hv]

theorem ff_process_media_video_ok (stem sfx quality : String)
    (hv : py_lower sfx ∈ FileFormatter.video_exts) :
    FileFormatter.process_media ⟨stem, sfx, .ok⟩ quality =
      .ok (FileFormatter.CONVERTED_DIR ++ ("/") ++ (("optimized_") ++ stem ++ (".mp4")),
        ("Video (MP4)")) := by
  simp only [FileFormatter.process_media, ff_media_plan_video stem sfx quality _ hv]
  rfl

theorem blog_media_plan_video (stem sfx quality i o : String)
    (hv : py_lower sfx ∈ BlogSite.video_exts) :
    BlogSite.media_plan stem sfx quality i o =
      .ok { optimized_filename := ("optimized_") ++ stem ++ (".mp4")
            file_type := ("Video (MP4)")
            command :=
              [("ffmpeg"), ("-i"), i,
               ("-vcodec"), ("libx264"),
               ("-crf"), BlogSite.crf_value quality,
               ("-preset"), ("fast"),
               ("-acodec"), ("aac"),
               ("-movflags"), ("+faststart"),
               ("-y"),
               o ++ ("/") ++ (("optimized_") ++ stem ++ (".mp4"))] } := by
  simp only [BlogSite.media_plan]
  rw [if_pos hv]

theorem blog_image_not_video (e : String) (h : e ∈ BlogSite.image_exts) :
    e ∉ BlogSite.video_exts := by
  fin_cases h <;> decide

theorem blog_media_plan_image (stem sfx quality i o : String)
    (hv : py_lower sfx ∈ BlogSite.image_exts) :
    BlogSite.media_plan stem sfx quality i o =
      .ok { optimized_filename := ("optimized_") ++ stem ++ (".webp")
            file_type := ("Image (WebP)")
            command :=
              [("ffmpeg"), ("-i"), i,
               ("-q:v"), BlogSite.webp_quality quality,
               ("-compression_level"), ("4"),
               ("-y"),
               o ++ ("/") ++ (("optimized_") ++ stem ++ (".webp"))] } := by
  simp only [BlogSite.media_plan]
  rw [if_neg (blog_image_not_video _ hv), if_pos hv]

theorem ff_image_exts_sub_blog (e : String) (h : e ∈ FileFormatter.image_exts) :
    e ∈ BlogSite.image_exts := by
  fin_cases h <;> decide

theorem blog_media_plan_unsupported (stem sfx quality i o : String)
    (hv : py_lower sfx ∉ BlogSite.video_exts) (hi : py_lower sfx ∉ BlogSite.image_exts) :
    BlogSite.media_plan stem sfx quality i o = .error (.unsupported (py_lower sfx)) := by
  simp only [BlogSite.media_plan]
  rw [if_neg hv, if_neg hi]

theorem ff_media_plan_unsupported (stem sfx quality i : String)
    (hv : py_lower sfx ∉ FileFormatter.video_exts) (hi : py_lower sfx ∉ FileFormatter.image_exts) :
    FileFormatter.media_plan stem sfx quality i = .error (.unsupported (py_lower sfx)) := by
  simp only [FileFormatter.media_plan]
  rw [if_neg hv, if_neg hi]

theorem conversionFailed_message_head (n dd : String) :
    ((ConvError.conversionFailed n dd).message).data.head? = some ('C') := by
  show ((("Conversion failed for ") ++ n ++ (". Detail: ") ++ dd).data).head? = some ('C')
  rw [String.data_append, String.data_append, String.data_append]
  rfl

theorem unsupported_message_head (e : String) :
    ((ConvError.unsupported e).message).data.head? = some ('U') := by
  show ((("Unsupported file type: ") ++ e
    ++ (". Only common video and image types are supported.")).data).head? = some ('U')
  rw [String.data_append, String.data_append]
  rfl

theorem conv_message_ne_notfound (n dd : String) :
    (ConvError.conversionFailed n dd).message ≠ ConvError.ffmpegNotFound.message := by
  intro h
  have h2 : ((ConvError.conversionFailed n dd).message).data.head?
      = (ConvError.ffmpegNotFound.message).data.head? := by rw [h]
  rw [conversionFailed_message_head] at h2
  have h3 : (ConvError.ffmpegNotFound.message).data.head? = some ('F') := rfl
  rw [h3] at h2
  exact absurd h2 (by decide)

theorem conv_message_ne_unsupported (n dd e : String) :
    (ConvError.conversionFailed n dd).message ≠ (ConvError.unsupported e).message := by
  intro h
  have h2 : ((ConvError.conversionFailed n dd).message).data.head?
      = ((ConvError.unsupported e).message).data.head? := by rw [h]
  rw [conversionFailed_message_head, unsupported_message_head] at h2
  exact absurd h2 (by decide)

theorem notfound_message_ne_unsupported (e : String) :
    ConvError.ffmpegNotFound.message ≠ (ConvError.unsupported e).message := by
  intro h
  have h2 : (ConvError.ffmpegNotFound.message).data.head?
      = ((ConvError.unsupported e).message).data.head? := by rw [h]
  rw [unsupported_message_head] at h2
  have h3 : (ConvError.ffmpegNotFound.message).data.head? = some ('F') := rfl
  rw [h3] at h2
  exact absurd h2 (by decide)

theorem zip_map_mk (u t : List String) :
    (u.zip t).map (fun p => BlogSite.MediaItem.mk p.2 p.1)
      = List.zipWith (fun a b => BlogSite.MediaItem.mk b a) u t := by
  induction u generalizing t with
  | nil => simp
  | cons a u ih =>
    cases t with
    | nil => simp
    | cons b t => simp [ih]

theorem kept_media_eq_zipWith (u t : List String) :
    BlogSite.kept_media u t = List.zipWith (fun a b => BlogSite.MediaItem.mk b a) u t := by
  cases u with
  | nil => simp [BlogSite.kept_media]
  | cons a u' =>
    cases t with
    | nil => simp [BlogSite.kept_media]
    | cons b t' =>
      rw [BlogSite.kept_media, if_pos (by simp)]
      exact zip_map_mk _ _

theorem build_new_media_eq_filterMap (files : List BlogSite.UploadSim) (q d : String)
    (h : ∀ f ∈ files, BlogSite.UploadSim.filename f ≠ ("")) :
    BlogSite.build_new_media files q d
      = files.filterMap (BlogSite.process_upload q d) := by
  cases files with
  | nil => rfl
  | cons f rest =>
    have hf : BlogSite.UploadSim.filename f ≠ ("") := h f (by simp)
    simp only [BlogSite.build_new_media]
    rw [if_neg hf]

theorem build_new_media_empty_first (f : BlogSite.UploadSim)
    (fs : List BlogSite.UploadSim) (q d : String)
    (hf : BlogSite.UploadSim.filename f = ("")) :
    BlogSite.build_new_media (f :: fs) q d = [] := by
  simp only [BlogSite.build_new_media]
  rw [if_pos hf]

theorem admin_update_cons_hit (p : BlogSite.BlogPost) (rest : List BlogSite.BlogPost)
    (post_id : Int) (form : BlogSite.EditForm) (hp : p.id = post_id) :
    BlogSite.admin_update_post (p :: rest) post_id form =
      some (BlogSite.media_to_delete (p.media.map (fun m => m.url)) form.existing_media_urls,
        ({ id := post_id
           title := form.title
           date := form.date
           description := form.description
           media := BlogSite.kept_media form.existing_media_urls form.existing_media_types
             ++ BlogSite.build_new_media form.files form.quality form.date_folder }
          : BlogSite.BlogPost) :: rest) := by
  simp only [BlogSite.admin_update_post]
  rw [if_pos hp]

theorem admin_update_append_skip (l1 rest : List BlogSite.BlogPost) (post_id : Int)
    (form : BlogSite.EditForm) (h : ∀ q ∈ l1, q.id ≠ post_id) :
    BlogSite.admin_update_post (l1 ++ rest) post_id form =
      (BlogSite.admin_update_post rest post_id form).map (fun r => (r.1, l1 ++ r.2)) := by
  induction l1 with
  | nil =>
    cases hr : BlogSite.admin_update_post rest post_id form with
    | none => simp [hr]
    | some r => simp [hr]
  | cons q l1 ih =>
    have hq : q.id ≠ post_id := h q (by simp)
    have ih' := ih (fun x hx => h x (by simp [hx]))
    simp only [List.cons_append, BlogSite.admin_update_post]
    rw [if_neg hq]
    simp only [List.append_eq]
    rw [ih']
    cases BlogSite.admin_update_post rest post_id form with
    | none => simp
    | some r => simp

theorem admin_delete_decompose (l1 l2 : List BlogSite.BlogPost) (p : BlogSite.BlogPost)
    (h1 : ∀ q ∈ l1, q.id ≠ p.id) (h2 : ∀ q ∈ l2, q.id ≠ p.id) :
    BlogSite.admin_delete_post (l1 ++ p :: l2) p.id
      = some (p.media.map (fun m => m.url), l1 ++ l2) := by
  have hfind : (l1 ++ p :: l2).find? (fun q => q.id == p.id) = some p := by
    rw [List.find?_append]
    have hnone : l1.find? (fun q => q.id == p.id) = none :=
      List.find?_eq_none.mpr (fun x hx => by simp [h1 x hx])
    rw [hnone, List.find?_cons_of_pos _ (by simp)]
    rfl
  have hfilter : (l1 ++ p :: l2).filter (fun q => !(q.id == p.id)) = l1 ++ l2 := by
    rw [List.filter_append, List.filter_cons_of_neg (by simp)]
    rw [List.filter_eq_self.mpr (fun a ha => by simp [h1 a ha]),
        List.filter_eq_self.mpr (fun a ha => by simp [h2 a ha])]
  simp only [BlogSite.admin_delete_post]
  rw [hfind, hfilter]

theorem media_json_roundtrip (m : BlogSite.MediaItem) :
    BlogSite.media_of_json (BlogSite.media_to_json m) = some m := rfl

theorem media_list_json_roundtrip (ms : List BlogSite.MediaItem) :
    BlogSite.parse_all BlogSite.media_of_json (ms.map BlogSite.media_to_json) = some ms := by
  induction ms with
  | nil => rfl
  | cons m ms ih =>
    simp only [List.map_cons, BlogSite.parse_all]
    rw [media_json_roundtrip, ih]

theorem post_json_roundtrip (p : BlogSite.BlogPost) :
    BlogSite.post_of_json (BlogSite.post_to_json p) = some p := by
  show (match BlogSite.parse_all BlogSite.media_of_json (p.media.map BlogSite.media_to_json) with
        | some media => some (BlogSite.BlogPost.mk p.id p.title p.date p.description media)
        | none => none) = some p
  rw [media_list_json_roundtrip]

theorem posts_load_save (ps : List BlogSite.BlogPost) :
    BlogSite.load_posts (some (BlogSite.save_posts ps)) = some ps := by
  show BlogSite.parse_all BlogSite.post_of_json (ps.map BlogSite.post_to_json) = some ps
  induction ps with
  | nil => rfl
  | cons p ps ih =>
    simp only [List.map_cons, BlogSite.parse_all]
    rw [post_json_roundtrip, ih]

/-- C3: every quality-tier string outside high/medium/low resolves to exactly
the medium parameters (video CRF '23', image quality '75') in both variants. -/
theorem c3_unknown_quality_defaults_to_medium (q : String)
    (h1 : q ≠ ("high")) (h2 : q ≠ ("medium")) (h3 : q ≠ ("low")) :
    BlogSite.crf_value q = ("23") ∧ BlogSite.webp_quality q = ("75")
    ∧ FileFormatter.crf_value q = ("23") ∧ FileFormatter.webp_quality q = ("75")
    ∧ BlogSite.crf_value q = BlogSite.crf_value ("medium")
    ∧ BlogSite.webp_quality q = BlogSite.webp_quality ("medium")
    ∧ FileFormatter.crf_value q = FileFormatter.crf_value ("medium")
    ∧ FileFormatter.webp_quality q = FileFormatter.webp_quality ("medium") := by
  simp [BlogSite.crf_value, BlogSite.webp_quality,
    FileFormatter.crf_value, FileFormatter.webp_quality, h1, h2, h3]

theorem c3_witness :
    (("ultra") ≠ ("high") ∧ ("ultra") ≠ ("medium") ∧ ("ultra") ≠ ("low"))
    ∧ (BlogSite.crf_value ("ultra") = ("23") ∧ BlogSite.webp_quality ("ultra") = ("75")
      ∧ FileFormatter.crf_value ("ultra") = ("23")
      ∧ FileFormatter.webp_quality ("ultra") = ("75")
      ∧ BlogSite.crf_value ("ultra") = BlogSite.crf_value ("medium")
      ∧ BlogSite.webp_quality ("ultra") = BlogSite.webp_quality ("medium")
      ∧ FileFormatter.crf_value ("ultra") = FileFormatter.crf_value ("medium")
      ∧ FileFormatter.webp_quality ("ultra") = FileFormatter.webp_quality ("medium")) :=
  ⟨⟨by decide, by decide, by decide⟩,
    c3_unknown_quality_defaults_to_medium ("ultra") (by decide) (by decide) (by decide)⟩


/-- C1: lowercased video extensions yield an optimized_<stem>.mp4 plan labelled
"Video (MP4)" with H.264 video, AAC audio and faststart; supported image
extensions yield optimized_<stem>.webp labelled "Image (WebP)"; clip.mov at
'low' carries CRF 28 and photo.PNG at 'high' carries WebP quality 85. -/
theorem c1_extension_classification (stem sfx quality i o d : String) :
    (py_lower sfx ∈ BlogSite.video_exts →
      ∃ plan, BlogSite.media_plan stem sfx quality i o = .ok plan
        ∧ plan.optimized_filename = ("optimized_") ++ stem ++ (".mp4")
        ∧ plan.file_type = ("Video (MP4)")
        ∧ ("libx264") ∈ plan.command ∧ ("aac") ∈ plan.command
        ∧ ("+faststart") ∈ plan.command)
    ∧ (py_lower sfx ∈ BlogSite.image_exts →
      ∃ plan, BlogSite.media_plan stem sfx quality i o = .ok plan
        ∧ plan.optimized_filename = ("optimized_") ++ stem ++ (".webp")
        ∧ plan.file_type = ("Image (WebP)"))
    ∧ (py_lower sfx ∈ FileFormatter.video_exts →
      FileFormatter.process_media ⟨stem, sfx, .ok⟩ quality
        = .ok (FileFormatter.CONVERTED_DIR ++ ("/") ++ (("optimized_") ++ stem ++ (".mp4")),
            ("Video (MP4)")))
    ∧ (py_lower sfx ∈ FileFormatter.image_exts →
      FileFormatter.process_media ⟨stem, sfx, .ok⟩ quality
        = .ok (FileFormatter.CONVERTED_DIR ++ ("/") ++ (("optimized_") ++ stem ++ (".webp")),
            ("Image (WebP)")))
    ∧ FileFormatter.media_plan ("clip") (".mov") ("low") i
        = .ok { optimized_filename := ("optimized_clip.mp4")
                file_type := ("Video (MP4)")
                command :=
                  [("ffmpeg"), ("-i"), i,
                   ("-vcodec"), ("libx264"),
                   ("-crf"), ("28"),
                   ("-preset"), ("fast"),
                   ("-acodec"), ("aac"),
                   ("-movflags"), ("+faststart"),
                   ("-y"),
                   ("converted_media/optimized_clip.mp4")] }
    ∧ FileFormatter.media_plan ("photo") (".PNG") ("high") i
        = .ok { optimized_filename := ("optimized_photo.webp")
                file_type := ("Image (WebP)")
                command :=
                  [("ffmpeg"), ("-i"), i,
                   ("-q:v"), ("85"),
                   ("-compression_level"), ("4"),
                   ("-y"),
                   ("converted_media/optimized_photo.webp")] }
    ∧ BlogSite.process_media ⟨("clip"), (".mov"), .ok, true⟩ ("low") d
        = .ok (BlogSite.get_gcs_url (("posts/") ++ d ++ ("/") ++ ("optimized_clip.mp4")),
            ("Video (MP4)"))
    ∧ BlogSite.process_media ⟨("photo"), (".PNG"), .ok, true⟩ ("high") d
        = .ok (BlogSite.get_gcs_url (("posts/") ++ d ++ ("/") ++ ("optimized_photo.webp")),
            ("Image (WebP)")) := by
  refine ⟨?_, ?_, ?_, ?_, ?_, ?_, ?_, ?_⟩
  · intro hv
    refine ⟨_, blog_media_plan_video stem sfx quality i o hv, rfl, rfl, ?_, ?_, ?_⟩
      <;> simp
  · intro hi
    exact ⟨_, blog_media_plan_image stem sfx quality i o hi, rfl, rfl⟩
  · intro hv
    exact ff_process_media_video_ok stem sfx quality hv
  · intro hi
    simp only [FileFormatter.process_media, ff_media_plan_image stem sfx quality _ hi]
    rfl
  · exact ff_media_plan_video ("clip") (".mov") ("low") i (by decide)
  · exact ff_media_plan_image ("photo") (".PNG") ("high") i (by decide)
  · simp only [BlogSite.process_media,
      blog_media_plan_video ("clip") (".mov") ("low") _ _ (by decide)]
    rfl
  · simp only [BlogSite.process_media,
      blog_media_plan_image ("photo") (".PNG") ("high") _ _ (by decide)]
    rfl

theorem c1_witness :
    (py_lower (".mov") ∈ BlogSite.video_exts)
    ∧ (py_lower (".PNG") ∈ BlogSite.image_exts)
    ∧ (py_lower (".mov") ∈ FileFormatter.video_exts)
    ∧ (py_lower (".PNG") ∈ FileFormatter.image_exts)
    ∧ (∃ plan, BlogSite.media_plan ("clip") (".mov") ("low") ("ti") ("to") = .ok plan
        ∧ plan.optimized_filename = ("optimized_") ++ ("clip") ++ (".mp4")
        ∧ plan.file_type = ("Video (MP4)")
        ∧ ("libx264") ∈ plan.command ∧ ("aac") ∈ plan.command
        ∧ ("+faststart") ∈ plan.command)
    ∧ (∃ plan, BlogSite.media_plan ("photo") (".PNG") ("high") ("ti") ("to") = .ok plan
        ∧ plan.optimized_filename = ("optimized_") ++ ("photo") ++ (".webp")
        ∧ plan.file_type = ("Image (WebP)"))
    ∧ FileFormatter.process_media ⟨("clip"), (".mov"), .ok⟩ ("low")
        = .ok (FileFormatter.CONVERTED_DIR ++ ("/") ++ (("optimized_") ++ ("clip") ++ (".mp4")),
            ("Video (MP4)"))
    ∧ FileFormatter.process_media ⟨("photo"), (".PNG"), .ok⟩ ("high")
        = .ok (FileFormatter.CONVERTED_DIR ++ ("/") ++ (("optimized_") ++ ("photo") ++ (".webp")),
            ("Image (WebP)")) :=
  ⟨by decide, by decide, by decide, by decide,
    (c1_extension_classification ("clip") (".mov") ("low") ("ti") ("to") ("d")).1 (by decide),
    (c1_extension_classification ("photo") (".PNG") ("high") ("ti") ("to") ("d")).2.1 (by decide),
    (c1_extension_classification ("clip") (".mov") ("low") ("ti") ("to") ("d")).2.2.1 (by decide),
    (c1_extension_classification ("photo") (".PNG") ("high") ("ti") ("to") ("d")).2.2.2.1 (by decide)⟩

/-- C2: any extension outside the recognised video and image sets makes
process_media fail, in both variants, with the unsupported-file-type error
naming that lowercased extension, independently of the encoder and upload
oracles (so the encoder is never invoked and no output is produced). -/
theorem c2_unsupported_extension_rejected (stem sfx quality d : String)
    (enc : EncoderOutcome) (up : Bool)
    (hv : py_lower sfx ∉ BlogSite.video_exts)
    (hi : py_lower sfx ∉ BlogSite.image_exts) :
    BlogSite.process_media ⟨stem, sfx, enc, up⟩ quality d
        = .error (.unsupported (py_lower sfx))
    ∧ FileFormatter.process_media ⟨stem, sfx, enc⟩ quality
        = .error (.unsupported (py_lower sfx))
    ∧ (ConvError.unsupported (py_lower sfx)).message
        = ("Unsupported file type: ") ++ py_lower sfx
          ++ (". Only common video and image types are supported.") := by
  have hiff : py_lower sfx ∉ FileFormatter.image_exts :=
    fun hmem => hi (ff_image_exts_sub_blog _ hmem)
  refine ⟨?_, ?_, rfl⟩
  · simp only [BlogSite.process_media, blog_media_plan_unsupported stem sfx quality _ _ hv hi]
    rfl
  · simp only [FileFormatter.process_media,
      ff_media_plan_unsupported stem sfx quality _ hv hiff]
    rfl

theorem c2_witness :
    (py_lower (".pdf") ∉ BlogSite.video_exts)
    ∧ (py_lower (".pdf") ∉ BlogSite.image_exts)
    ∧ (BlogSite.process_media ⟨("doc"), (".pdf"), .ok, true⟩ ("medium") ("d")
        = .error (.unsupported (py_lower (".pdf")))
      ∧ FileFormatter.process_media ⟨("doc"), (".pdf"), .ok⟩ ("medium")
        = .error (.unsupported (py_lower (".pdf")))
      ∧ (ConvError.unsupported (py_lower (".pdf"))).message
        = ("Unsupported file type: ") ++ py_lower (".pdf")
          ++ (". Only common video and image types are supported.")) :=
  ⟨by decide, by decide,
    c2_unsupported_extension_rejected ("doc") (".pdf") ("medium") ("d") .ok true
      (by decide) (by decide)⟩

/-- C8: for supported inputs, a non-zero encoder exit yields the
"Conversion failed" error carrying the stderr excerpt, a missing binary
yields the distinct "FFmpeg command not found" error, and the three error
messages (including the unsupported-type one) are pairwise distinct; each
conversion consults the encoder outcome exactly once (no retry). -/
theorem c8_encoder_failure_modes (stem sfx quality d stderr : String)
    (hsupp : py_lower sfx ∈ BlogSite.video_exts ∨ py_lower sfx ∈ BlogSite.image_exts) :
    BlogSite.process_media ⟨stem, sfx, .exitNonZero stderr, true⟩ quality d
        = .error (.conversionFailed (stem ++ sfx) (error_detail stderr))
    ∧ BlogSite.process_media ⟨stem, sfx, .notFound, true⟩ quality d
        = .error .ffmpegNotFound
    ∧ ((py_lower sfx ∈ FileFormatter.video_exts ∨ py_lower sfx ∈ FileFormatter.image_exts) →
        FileFormatter.process_media ⟨stem, sfx, .exitNonZero stderr⟩ quality
            = .error (.conversionFailed (stem ++ sfx) (error_detail stderr))
        ∧ FileFormatter.process_media ⟨stem, sfx, .notFound⟩ quality
            = .error .ffmpegNotFound)
    ∧ (∀ n dd, (ConvError.conversionFailed n dd).message ≠ ConvError.ffmpegNotFound.message)
    ∧ (∀ n dd e, (ConvError.conversionFailed n dd).message ≠ (ConvError.unsupported e).message)
    ∧ (∀ e, ConvError.ffmpegNotFound.message ≠ (ConvError.unsupported e).message) := by
  refine ⟨?_, ?_, ?_, conv_message_ne_notfound, conv_message_ne_unsupported,
    notfound_message_ne_unsupported⟩
  · rcases hsupp with hv | hi
    · simp only [BlogSite.process_media, blog_media_plan_video stem sfx quality _ _ hv]
      rfl
    · simp only [BlogSite.process_media, blog_media_plan_image stem sfx quality _ _ hi]
      rfl
  · rcases hsupp with hv | hi
    · simp only [BlogSite.process_media, blog_media_plan_video stem sfx quality _ _ hv]
      rfl
    · simp only [BlogSite.process_media, blog_media_plan_image stem sfx quality _ _ hi]
      rfl
  · rintro (hv | hi)
    · constructor
      · simp only [FileFormatter.process_media, ff_media_plan_video stem sfx quality _ hv]
        rfl
      · simp only [FileFormatter.process_media, ff_media_plan_video stem sfx quality _ hv]
        rfl
    · constructor
      · simp only [FileFormatter.process_media, ff_media_plan_image stem sfx quality _ hi]
        rfl
      · simp only [FileFormatter.process_media, ff_media_plan_image stem sfx quality _ hi]
        rfl

theorem c8_witness :
    (py_lower (".mov") ∈ BlogSite.video_exts ∨ py_lower (".mov") ∈ BlogSite.image_exts)
    ∧ (BlogSite.process_media ⟨("clip"), (".mov"), .exitNonZero ("boom Error 1: bad\nrest"), true⟩
          ("medium") ("d")
        = .error (.conversionFailed (("clip") ++ (".mov"))
            (error_detail ("boom Error 1: bad\nrest"))))
    ∧ (BlogSite.process_media ⟨("clip"), (".mov"), .notFound, true⟩ ("medium") ("d")
        = .error .ffmpegNotFound)
    ∧ (FileFormatter.process_media ⟨("clip"), (".mov"), .exitNonZero ("boom Error 1: bad\nrest")⟩
          ("medium")
        = .error (.conversionFailed (("clip") ++ (".mov"))
            (error_detail ("boom Error 1: bad\nrest"))))
    ∧ (ConvError.conversionFailed ("clip.mov") ("x")).message
        ≠ ConvError.ffmpegNotFound.message := by
  have h := c8_encoder_failure_modes ("clip") (".mov") ("medium") ("d")
    ("boom Error 1: bad\nrest") (Or.inl (by decide))
  exact ⟨Or.inl (by decide), h.1, h.2.1, (h.2.2.1 (Or.inl (by decide))).1,
    h.2.2.2.1 ("clip.mov") ("x")⟩

/-- C6: for every persisted collection (any file content that load_posts
accepts), saving the loaded collection and loading it again yields the same
ordered sequence of posts with all fields and media unchanged. -/
theorem c6_save_load_roundtrip (file : Option BlogSite.Json)
    (ps : List BlogSite.BlogPost) (_h : BlogSite.load_posts file = some ps) :
    BlogSite.load_posts (some (BlogSite.save_posts ps)) = some ps :=
  posts_load_save ps

theorem c6_witness :
    BlogSite.load_posts (some (.jarr [.jobj
        [(("id"), .jnum 1), (("title"), .jstr ("t")), (("date"), .jstr ("24-06-2025")),
         (("description"), .jstr ("hello")),
         (("media"), .jarr [.jobj [(("type"), .jstr ("image")), (("url"), .jstr ("u1"))]])]]))
      = some [⟨1, ("t"), ("24-06-2025"), ("hello"), [⟨("image"), ("u1")⟩]⟩]
    ∧ BlogSite.load_posts (some (BlogSite.save_posts
        [⟨1, ("t"), ("24-06-2025"), ("hello"), [⟨("image"), ("u1")⟩]⟩]))
      = some [⟨1, ("t"), ("24-06-2025"), ("hello"), [⟨("image"), ("u1")⟩]⟩] :=
  ⟨rfl, c6_save_load_roundtrip (some (.jarr [.jobj
      [(("id"), .jnum 1), (("title"), .jstr ("t")), (("date"), .jstr ("24-06-2025")),
       (("description"), .jstr ("hello")),
       (("media"), .jarr [.jobj [(("type"), .jstr ("image")), (("url"), .jstr ("u1"))]])]]))
    [⟨1, ("t"), ("24-06-2025"), ("hello"), [⟨("image"), ("u1")⟩]⟩] rfl⟩

/-- C9: the kept-media list is the element-wise pairing of the submitted URL
and type lists truncated to the shorter one; if either list is empty (or
absent), nothing is kept even when the other is non-empty; the deletion list
of the edit handler is computed from the submitted URL list alone. -/
theorem c9_kept_media_zip_truncation (urls types : List String)
    (p : BlogSite.BlogPost) (rest : List BlogSite.BlogPost) (form : BlogSite.EditForm) :
    BlogSite.kept_media urls types
        = List.zipWith (fun u t => BlogSite.MediaItem.mk t u) urls types
    ∧ (BlogSite.kept_media urls types).length = min urls.length types.length
    ∧ (urls = [] → BlogSite.kept_media urls types = [])
    ∧ (types = [] → BlogSite.kept_media urls types = [])
    ∧ (BlogSite.admin_update_post (p :: rest) p.id form).map Prod.fst
        = some (BlogSite.media_to_delete (p.media.map (fun m => m.url))
            form.existing_media_urls) := by
  refine ⟨kept_media_eq_zipWith urls types, ?_, ?_, ?_, ?_⟩
  · rw [kept_media_eq_zipWith urls types, List.length_zipWith]
  · intro h
    subst h
    simp [BlogSite.kept_media]
  · intro h
    subst h
    simp [BlogSite.kept_media]
  · rw [admin_update_cons_hit p rest p.id form rfl]
    rfl

/-- C10: in both post creation and post edit, when the first uploaded file has
an empty filename the whole batch is silently ignored, whatever the later
files are: no media is added, while the rest of the handler still runs. -/
theorem c10_first_empty_filename_skips_batch
    (f : BlogSite.UploadSim) (fs : List BlogSite.UploadSim)
    (hf : BlogSite.UploadSim.filename f = (""))
    (q d : String)
    (posts : List BlogSite.BlogPost) (form : BlogSite.CreateForm)
    (hform : form.files = f :: fs)
    (p : BlogSite.BlogPost) (rest : List BlogSite.BlogPost) (eform : BlogSite.EditForm)
    (heform : eform.files = f :: fs) :
    BlogSite.build_new_media (f :: fs) q d = []
    ∧ BlogSite.admin_create_post posts form
        = posts ++ [{ id := BlogSite.next_id posts
                      title := form.title
                      date := form.date
                      description := form.description
                      media := [] }]
    ∧ BlogSite.admin_update_post (p :: rest) p.id eform
        = some (BlogSite.media_to_delete (p.media.map (fun m => m.url))
              eform.existing_media_urls,
            ({ id := p.id
               title := eform.title
               date := eform.date
               description := eform.description
               media := BlogSite.kept_media eform.existing_media_urls
                 eform.existing_media_types } : BlogSite.BlogPost) :: rest) := by
  refine ⟨build_new_media_empty_first f fs q d hf, ?_, ?_⟩
  · simp only [BlogSite.admin_create_post, hform,
      build_new_media_empty_first f fs form.quality form.date_folder hf]
  · rw [admin_update_cons_hit p rest p.id eform rfl, heform,
      build_new_media_empty_first f fs eform.quality eform.date_folder hf,
      List.append_nil]

theorem c10_witness :
    (BlogSite.UploadSim.filename ⟨(""), (""), .ok, true⟩ = (""))
    ∧ BlogSite.build_new_media
        [⟨(""), (""), .ok, true⟩, ⟨("pic"), (".jpg"), .ok, true⟩] ("medium") ("d") = []
    ∧ BlogSite.admin_create_post []
        ⟨("t"), ("dt"), ("ds"), ("d"), ("medium"),
          [⟨(""), (""), .ok, true⟩, ⟨("pic"), (".jpg"), .ok, true⟩]⟩
        = [] ++ [{ id := BlogSite.next_id []
                   title := ("t")
                   date := ("dt")
                   description := ("ds")
                   media := [] }] := by
  have h := c10_first_empty_filename_skips_batch ⟨(""), (""), .ok, true⟩
    [⟨("pic"), (".jpg"), .ok, true⟩] rfl ("medium") ("d") []
    ⟨("t"), ("dt"), ("ds"), ("d"), ("medium"),
      [⟨(""), (""), .ok, true⟩, ⟨("pic"), (".jpg"), .ok, true⟩]⟩ rfl
    ⟨1, (""), (""), (""), []⟩ []
    ⟨("t"), ("dt"), ("ds"), ("d"), ("medium"), [], [],
      [⟨(""), (""), .ok, true⟩, ⟨("pic"), (".jpg"), .ok, true⟩]⟩ rfl
  exact ⟨rfl, h.1, h.2.1⟩

/-- C4: editing a post whose submitted kept list is a permutation of a subset
of its stored media (with matching types), plus new uploads, saves exactly
the kept items in the caller-submitted order followed by the successfully
converted new items in upload order; the id is unchanged and title, date and
description are replaced by the submitted values. -/
theorem c4_edit_preserves_submitted_order
    (l1 l2 : List BlogSite.BlogPost) (p : BlogSite.BlogPost) (form : BlogSite.EditForm)
    (hl1 : ∀ q ∈ l1, q.id ≠ p.id)
    (_hlen : form.existing_media_urls.length = form.existing_media_types.length)
    (_hsub : ∀ pr ∈ form.existing_media_urls.zip form.existing_media_types,
      BlogSite.MediaItem.mk pr.2 pr.1 ∈ p.media)
    (_hnodup : form.existing_media_urls.Nodup)
    (hfiles : ∀ f ∈ form.files, BlogSite.UploadSim.filename f ≠ ("")) :
    BlogSite.admin_update_post (l1 ++ p :: l2) p.id form =
      some (BlogSite.media_to_delete (p.media.map (fun m => m.url)) form.existing_media_urls,
        l1 ++ ({ id := p.id
                 title := form.title
                 date := form.date
                 description := form.description
                 media := List.zipWith (fun u t => BlogSite.MediaItem.mk t u)
                     form.existing_media_urls form.existing_media_types
                   ++ form.files.filterMap
                     (BlogSite.process_upload form.quality form.date_folder) }
          : BlogSite.BlogPost) :: l2) := by
  rw [admin_update_append_skip l1 (p :: l2) p.id form hl1,
    admin_update_cons_hit p l2 p.id form rfl]
  simp only [Option.map_some']
  rw [kept_media_eq_zipWith, build_new_media_eq_filterMap form.files _ _ hfiles]

theorem c4_witness :
    (∀ q ∈ ([] : List BlogSite.BlogPost), q.id ≠ (1 : Int))
    ∧ ([("u2"), ("u1")] : List String).length = ([("video"), ("image")] : List String).length
    ∧ (∀ pr ∈ ([("u2"), ("u1")] : List String).zip [("video"), ("image")],
        BlogSite.MediaItem.mk pr.2 pr.1
          ∈ [BlogSite.MediaItem.mk ("image") ("u1"), BlogSite.MediaItem.mk ("video") ("u2"),
             BlogSite.MediaItem.mk ("image") ("u3")])
    ∧ ([("u2"), ("u1")] : List String).Nodup
    ∧ BlogSite.admin_update_post
        [⟨1, ("old"), ("od"), ("ods"),
          [⟨("image"), ("u1")⟩, ⟨("video"), ("u2")⟩, ⟨("image"), ("u3")⟩]⟩]
        1
        ⟨("nt"), ("nd"), ("nds"), ("df"), ("medium"), [("u2"), ("u1")],
          [("video"), ("image")], [⟨("pic"), (".jpg"), .ok, true⟩]⟩ =
      some (BlogSite.media_to_delete
          ([⟨("image"), ("u1")⟩, ⟨("video"), ("u2")⟩,
            (⟨("image"), ("u3")⟩ : BlogSite.MediaItem)].map (fun m => m.url))
          [("u2"), ("u1")],
        [] ++ ({ id := 1
                 title := ("nt")
                 date := ("nd")
                 description := ("nds")
                 media := List.zipWith (fun u t => BlogSite.MediaItem.mk t u)
                     [("u2"), ("u1")] [("video"), ("image")]
                   ++ ([⟨("pic"), (".jpg"), .ok, true⟩] : List BlogSite.UploadSim).filterMap
                     (BlogSite.process_upload ("medium") ("df")) }
          : BlogSite.BlogPost) :: []) := by
  have h := c4_edit_preserves_submitted_order []
    [] ⟨1, ("old"), ("od"), ("ods"),
      [⟨("image"), ("u1")⟩, ⟨("video"), ("u2")⟩, ⟨("image"), ("u3")⟩]⟩
    ⟨("nt"), ("nd"), ("nds"), ("df"), ("medium"), [("u2"), ("u1")],
      [("video"), ("image")], [⟨("pic"), (".jpg"), .ok, true⟩]⟩
    (by simp) (by decide) (by decide) (by decide) (by decide)
  exact ⟨by simp, by decide, by decide, by decide, h⟩

/-- C5: deleting a post issues storage deletions for exactly that post's
media URLs, removes exactly that post, and leaves the remaining posts, in
their original relative order, untouched; under exclusive media ownership no
other post's media URL is deleted. -/
theorem c5_delete_exact_frame
    (l1 l2 : List BlogSite.BlogPost) (p : BlogSite.BlogPost)
    (h1 : ∀ q ∈ l1, q.id ≠ p.id) (h2 : ∀ q ∈ l2, q.id ≠ p.id)
    (hown : ∀ q ∈ l1 ++ l2, ∀ m ∈ q.media, ∀ m' ∈ p.media, m.url ≠ m'.url) :
    BlogSite.admin_delete_post (l1 ++ p :: l2) p.id
        = some (p.media.map (fun m => m.url), l1 ++ l2)
    ∧ ∀ q ∈ l1 ++ l2, ∀ m ∈ q.media, m.url ∉ p.media.map (fun m' => m'.url) := by
  refine ⟨admin_delete_decompose l1 l2 p h1 h2, ?_⟩
  intro q hq m hm hmem
  rw [List.mem_map] at hmem
  obtain ⟨m', hm', heq⟩ := hmem
  exact hown q hq m hm m' hm' heq.symm

theorem c5_witness :
    (∀ q ∈ [(⟨2, ("b"), ("bd"), ("bds"),
        [BlogSite.MediaItem.mk ("image") ("v1")]⟩ : BlogSite.BlogPost)], q.id ≠ (1 : Int))
    ∧ BlogSite.admin_delete_post
        [⟨2, ("b"), ("bd"), ("bds"), [⟨("image"), ("v1")⟩]⟩,
         ⟨1, ("a"), ("ad"), ("ads"), [⟨("image"), ("u1")⟩, ⟨("video"), ("u2")⟩]⟩]
        1
      = some (([⟨("image"), ("u1")⟩,
          (⟨("video"), ("u2")⟩ : BlogSite.MediaItem)]).map (fun m => m.url),
          [⟨2, ("b"), ("bd"), ("bds"), [⟨("image"), ("v1")⟩]⟩] ++ []) := by
  have h := c5_delete_exact_frame
    [⟨2, ("b"), ("bd"), ("bds"), [⟨("image"), ("v1")⟩]⟩] []
    ⟨1, ("a"), ("ad"), ("ads"), [⟨("image"), ("u1")⟩, ⟨("video"), ("u2")⟩]⟩
    (by decide) (by decide) (by decide)
  exact ⟨by decide, h.1⟩

/-- C7: in the create handler, the edit handler and the bulk /convert
endpoint, one file's conversion failure removes only that file's
contribution: every sibling file is still processed, the batch completes,
and in the bulk tool the failing file yields a per-file failure row. -/
theorem c7_per_file_failure_isolated
    (fs1 fs2 : List BlogSite.UploadSim) (f : BlogSite.UploadSim) (q d : String)
    (hfail : BlogSite.process_upload q d f = none)
    (hnames : ∀ g ∈ fs1 ++ f :: fs2, BlogSite.UploadSim.filename g ≠ (""))
    (posts : List BlogSite.BlogPost) (form : BlogSite.CreateForm)
    (hform : form.files = fs1 ++ f :: fs2)
    (hq : form.quality = q) (hd : form.date_folder = d)
    (p : BlogSite.BlogPost) (rest : List BlogSite.BlogPost) (eform : BlogSite.EditForm)
    (heform : eform.files = fs1 ++ f :: fs2)
    (heq : eform.quality = q) (hed : eform.date_folder = d)
    (ff1 ff2 : List FileFormatter.UploadSim) (g : FileFormatter.UploadSim)
    (fq : String) (e : ConvError)
    (hgfail : FileFormatter.process_media g fq = .error e) :
    BlogSite.build_new_media (fs1 ++ f :: fs2) q d
        = fs1.filterMap (BlogSite.process_upload q d)
          ++ fs2.filterMap (BlogSite.process_upload q d)
    ∧ BlogSite.admin_create_post posts form
        = posts ++ [{ id := BlogSite.next_id posts
                      title := form.title
                      date := form.date
                      description := form.description
                      media := fs1.filterMap (BlogSite.process_upload q d)
                        ++ fs2.filterMap (BlogSite.process_upload q d) }]
    ∧ BlogSite.admin_update_post (p :: rest) p.id eform
        = some (BlogSite.media_to_delete (p.media.map (fun m => m.url))
              eform.existing_media_urls,
            ({ id := p.id
               title := eform.title
               date := eform.date
               description := eform.description
               media := BlogSite.kept_media eform.existing_media_urls
                   eform.existing_media_types
                 ++ (fs1.filterMap (BlogSite.process_upload q d)
                   ++ fs2.filterMap (BlogSite.process_upload q d)) }
              : BlogSite.BlogPost) :: rest)
    ∧ FileFormatter.convert_media_bulk (ff1 ++ g :: ff2) fq
        = some (ff1.map (FileFormatter.convert_one fq)
            ++ FileFormatter.convert_one fq g :: ff2.map (FileFormatter.convert_one fq))
    ∧ (FileFormatter.convert_one fq g).status = ("failed")
    ∧ (FileFormatter.convert_one fq g).message = e.message := by
  have hbuild : BlogSite.build_new_media (fs1 ++ f :: fs2) q d
      = fs1.filterMap (BlogSite.process_upload q d)
        ++ fs2.filterMap (BlogSite.process_upload q d) := by
    rw [build_new_media_eq_filterMap _ _ _ hnames, List.filterMap_append]
    simp [List.filterMap_cons, hfail]
  refine ⟨hbuild, ?_, ?_, ?_, ?_, ?_⟩
  · simp only [BlogSite.admin_create_post, hform, hq, hd, hbuild]
  · rw [admin_update_cons_hit p rest p.id eform rfl, heform, heq, hed, hbuild]
  · have hne : ff1 ++ g :: ff2 ≠ [] := by simp
    simp only [FileFormatter.convert_media_bulk]
    rw [if_neg hne, List.map_append, List.map_cons]
  · simp only [FileFormatter.convert_one, hgfail]
  · simp only [FileFormatter.convert_one, hgfail]

theorem c7_witness :
    BlogSite.process_upload ("medium") ("d") ⟨("bad"), (".mov"), .notFound, true⟩ = none
    ∧ (∀ g ∈ [⟨("ok1"), (".jpg"), .ok, true⟩, ⟨("bad"), (".mov"), .notFound, true⟩,
          (⟨("ok2"), (".mp4"), .ok, true⟩ : BlogSite.UploadSim)],
        BlogSite.UploadSim.filename g ≠ (""))
    ∧ BlogSite.build_new_media
        [⟨("ok1"), (".jpg"), .ok, true⟩, ⟨("bad"), (".mov"), .notFound, true⟩,
         ⟨("ok2"), (".mp4"), .ok, true⟩] ("medium") ("d")
      = ([⟨("ok1"), (".jpg"), .ok, true⟩] : List BlogSite.UploadSim).filterMap
            (BlogSite.process_upload ("medium") ("d"))
        ++ ([⟨("ok2"), (".mp4"), .ok, true⟩] : List BlogSite.UploadSim).filterMap
            (BlogSite.process_upload ("medium") ("d"))
    ∧ FileFormatter.process_media ⟨("bad"), (".mov"), .notFound⟩ ("medium")
        = .error .ffmpegNotFound
    ∧ FileFormatter.convert_media_bulk
        [⟨("ok1"), (".jpg"), .ok⟩, ⟨("bad"), (".mov"), .notFound⟩] ("medium")
      = some (([⟨("ok1"), (".jpg"), .ok⟩] : List FileFormatter.UploadSim).map
            (FileFormatter.convert_one ("medium"))
          ++ FileFormatter.convert_one ("medium") ⟨("bad"), (".mov"), .notFound⟩
            :: ([] : List FileFormatter.UploadSim).map (FileFormatter.convert_one ("medium")))
    ∧ (FileFormatter.convert_one ("medium") ⟨("bad"), (".mov"), .notFound⟩).status
        = ("failed") := by
  have h := c7_per_file_failure_isolated
    [⟨("ok1"), (".jpg"), .ok, true⟩] [⟨("ok2"), (".mp4"), .ok, true⟩]
    ⟨("bad"), (".mov"), .notFound, true⟩ ("medium") ("d")
    (by decide) (by decide)
    [] ⟨("t"), ("dt"), ("ds"), ("d"), ("medium"),
      [⟨("ok1"), (".jpg"), .ok, true⟩, ⟨("bad"), (".mov"), .notFound, true⟩,
       ⟨("ok2"), (".mp4"), .ok, true⟩]⟩ rfl rfl rfl
    ⟨1, (""), (""), (""), []⟩ []
    ⟨("t"), ("dt"), ("ds"), ("d"), ("medium"), [], [],
      [⟨("ok1"), (".jpg"), .ok, true⟩, ⟨("bad"), (".mov"), .notFound, true⟩,
       ⟨("ok2"), (".mp4"), .ok, true⟩]⟩ rfl rfl rfl
    [⟨("ok1"), (".jpg"), .ok⟩] [] ⟨("bad"), (".mov"), .notFound⟩ ("medium")
    .ffmpegNotFound rfl
  exact ⟨by decide, by decide, h.1, rfl, h.2.2.2.1, h.2.2.2.2.1⟩

theorem c9_witness :
    (BlogSite.kept_media [("u1"), ("u2"), ("u3")] [("image"), ("video")]
        = List.zipWith (fun u t => BlogSite.MediaItem.mk t u)
            [("u1"), ("u2"), ("u3")] [("image"), ("video")])
    ∧ (BlogSite.kept_media [("u1"), ("u2"), ("u3")] [("image"), ("video")]).length
        = min ([("u1"), ("u2"), ("u3")] : List String).length
            ([("image"), ("video")] : List String).length
    ∧ (([] : List String) = [] → BlogSite.kept_media [] [("image")] = [])
    ∧ (([] : List String) = [] → BlogSite.kept_media [("u1")] [] = [])
    ∧ BlogSite.kept_media [] [("image")] = []
    ∧ BlogSite.kept_media [("u1")] [] = [] := by
  have h1 := c9_kept_media_zip_truncation [("u1"), ("u2"), ("u3")] [("image"), ("video")]
    ⟨1, (""), (""), (""), []⟩ [] ⟨(""), (""), (""), (""), (""), [], [], []⟩
  have h2 := c9_kept_media_zip_truncation [] [("image")]
    ⟨1, (""), (""), (""), []⟩ [] ⟨(""), (""), (""), (""), (""), [], [], []⟩
  have h3 := c9_kept_media_zip_truncation [("u1")] []
    ⟨1, (""), (""), (""), []⟩ [] ⟨(""), (""), (""), (""), (""), [], [], []⟩
  exact ⟨h1.1, h1.2.1, fun _ => h2.2.2.1 rfl, fun _ => h3.2.2.2.1 rfl,
    h2.2.2.1 rfl, h3.2.2.2.1 rfl⟩
